import Mathlib

/-!
Verification development for the `ashvattha` trading-assistant pipeline.

The Go sources embedded here are:
- `internal/account/info.go` : the position normalizer (`GetAccountInfo`) and the
  account report formatter;
- the `marketdata` package : the market snapshot builder (`GetMarketData`) and the
  market report formatter (`MarketData.Format`).

Machine floats are modelled as exact rationals (`ℚ`); the only float special value
the code inspects is NaN (`math.IsNaN` on the mark price), modelled by `GoFloat`.
Go pointers that may be nil are modelled as `Option`; fallible exchange-adapter
calls are modelled as `Except String` inputs (the adapter is an oracle: every call
the code can make has its response recorded in the input structure).  A Go runtime
panic is a distinct outcome from a returned error, modelled by `GoResult.crashed`.
-/

namespace Ashvattha

/-- A Go float64 as observed by this code: either NaN or an exact numeric value.
(Infinities never arise on the paths modelled here; `math.IsNaN` is the only
special-value test the source performs.) -/
inductive GoFloat where
  | nan : GoFloat
  | val : ℚ → GoFloat
deriving DecidableEq, Repr

/-- Outcome of running a piece of Go code that may return normally, return an
error, or panic. -/
inductive GoResult (α : Type) where
  | ok : α → GoResult α
  | err : String → GoResult α
  | crashed : GoResult α
deriving DecidableEq, Repr

namespace GoResult

def bind : GoResult α → (α → GoResult β) → GoResult β
  | ok a, f => f a
  | err e, _ => err e
  | crashed, _ => crashed

def isOk : GoResult α → Prop
  | ok _ => True
  | _ => False

end GoResult

/-! ## Account data model (`internal/account/info.go`, lines 11-50) -/

/-- ExitPlan contains the profit target, stop loss, and invalidation condition. -/
structure ExitPlan where
  profitTarget : ℚ
  stopLoss : ℚ
  invalidationCondition : String
deriving DecidableEq, Repr

/-- Position represents a trading position with all relevant details. -/
structure Position where
  symbol : String
  quantity : ℚ
  entryPrice : ℚ
  currentPrice : ℚ
  liquidationPrice : ℚ
  unrealizedPnl : ℚ
  leverage : ℚ
  exitPlan : ExitPlan
  confidence : ℚ
  riskUsd : ℚ
  slOid : Int
  tpOid : Int
  waitForFill : Bool
  entryOid : Int
  notionalUsd : ℚ
deriving DecidableEq, Repr

/-- AccountInfo holds all account-related information. -/
structure AccountInfo where
  totalReturnPercent : ℚ
  availableCash : ℚ
  currentAccountValue : ℚ
  positions : List Position
  sharpeRatio : ℚ
deriving DecidableEq, Repr

/-! ## Raw adapter data for `GetAccountInfo`

Only the keys and fields the source actually reads are modelled.  A Go dynamic
type assertion `m["k"].(T)` that fails (key absent or value of another type) is
modelled as `none`; `pos.Info == nil` is a separate `none` at the outer level,
exactly as in the source's nil checks. -/

/-- The fields of the Hyperliquid `Info["position"]` sub-map read by the code. -/
structure InfoPositionData where
  positionValue : Option ℚ
  szi : Option ℚ
  liquidationPx : Option ℚ
deriving DecidableEq, Repr

/-- The fields of the `Info["exit_plan"]` sub-map read by the code. -/
structure InfoExitPlan where
  profit_target : Option ℚ
  stop_loss : Option ℚ
  invalidation_condition : Option String
deriving DecidableEq, Repr

/-- The keys of a raw position's `Info` map read by the code. -/
structure PosInfo where
  position : Option InfoPositionData
  sl_oid : Option ℚ
  tp_oid : Option ℚ
  entry_oid : Option ℚ
  confidence : Option ℚ
  risk_usd : Option ℚ
  exit_plan : Option InfoExitPlan
deriving DecidableEq, Repr

/-- A raw ccxt position record: every pointer field the code dereferences. -/
structure RawPosition where
  symbol : Option String
  contracts : Option ℚ
  entryPrice : Option ℚ
  markPrice : Option GoFloat
  liquidationPrice : Option ℚ
  unrealizedPnl : Option ℚ
  leverage : Option ℚ
  notional : Option ℚ
  info : Option PosInfo
deriving DecidableEq, Repr

/-- The keys of a raw order's `Info` map read by the code.  `orderType` is the
string at `Info["info"]["orderType"]`; a missing inner map and a missing key are
observationally identical and both modelled as `none`. -/
structure RawOrderInfo where
  isTrigger : Option Bool
  orderType : Option String
  stopPrice : Option ℚ
  triggerPrice : Option ℚ
deriving DecidableEq, Repr

/-- A raw ccxt open-order record: the fields the code reads. -/
structure RawOrder where
  info : Option RawOrderInfo
  id : Option String
  side : Option String
deriving DecidableEq, Repr

/-- A raw position together with the adapter's responses to the per-position
calls the code makes while processing it: `FetchTicker(symbol)` (its `Last`
pointer) and `FetchOpenOrders(symbol)`. -/
structure RawPositionFetch where
  pos : RawPosition
  ticker : Except String (Option ℚ)
  openOrders : Except String (List RawOrder)
deriving Repr

/-- The adapter's responses to the account-level calls: `FetchBalance` (reduced
to the `Free["USDC"]` entry the code reads; a nil `Free` map, a missing `USDC`
key and a nil value pointer are all `none`) and `FetchPositions`. -/
structure AccountFetches where
  balanceFreeUSDC : Except String (Option ℚ)
  positions : Except String (List RawPositionFetch)
deriving Repr

/-! ## Position normalization (`GetAccountInfo`, lines 120-346) -/

/-- Go's `int64(x)` conversion of a float64: truncation toward zero. -/
def ratToInt64 (q : ℚ) : Int :=
  if 0 ≤ q then Rat.floor q else -(Rat.floor (-q))

/-- Longest run of leading decimal digits; `none` when the first character is
not a digit. -/
def leadingDigits : List Char → Option ℕ
  | [] => none
  | c :: cs =>
    if c.isDigit then
      some (cs.takeWhile Char.isDigit |>.foldl (fun a d => a * 10 + (d.toNat - 48)) (c.toNat - 48))
    else none

/-- Models `fmt.Sscanf(s, "%d", &x)`: skip leading whitespace, read an optional
sign and a maximal run of decimal digits; `none` when no digit is found (in
which case the Go target variable keeps its zero value). -/
def sscanfInt (s : String) : Option Int :=
  let cs := s.data.dropWhile fun c => c = ' ' ∨ c = '\t' ∨ c = '\n' ∨ c = '\r'
  match cs with
  | '-' :: rest => (leadingDigits rest).map fun n => -(n : Int)
  | '+' :: rest => (leadingDigits rest).map fun n => (n : Int)
  | _ => (leadingDigits cs).map fun n => (n : Int)

/-- Lines 136-145: the mark-price step of the current-price chain.  `some q`
exactly when the mark price is present, not NaN and non-zero; the source then
sets `hasMarkPrice` and keeps `currentPrice = q`, otherwise it resets
`currentPrice` to 0. -/
def markPriceValue (p : RawPosition) : Option ℚ :=
  match p.markPrice with
  | some (GoFloat.val q) => if q = 0 then none else some q
  | _ => none

/-- Lines 148-163: the Hyperliquid `Info` fallback of the current-price chain,
`positionValue / abs(szi)` when both keys are present and `szi` is non-zero;
0 (the untouched `currentPrice`) otherwise.  The absolute value is taken with
the source's explicit sign test (`absSzi := szi; if szi < 0 { absSzi = -szi }`). -/
def infoDerivedPrice (p : RawPosition) : ℚ :=
  match p.info with
  | some inf =>
    match inf.position with
    | some pd =>
      match pd.positionValue, pd.szi with
      | some pv, some s =>
        if s = 0 then 0
        else
          let absSzi := if s < 0 then -s else s
          pv / absSzi
      | _, _ => 0
    | none => 0
  | none => 0

/-- Lines 135-171: the full current-price resolution chain.  The ticker lookup
(lines 166-171) runs only when `currentPrice` is still 0 after the first two
steps, and contributes only when the fetch succeeded with a non-nil `Last`. -/
def resolveCurrentPrice (p : RawPosition) (ticker : Except String (Option ℚ)) : ℚ :=
  let afterInfo :=
    match markPriceValue p with
    | some q => q
    | none => infoDerivedPrice p
  if afterInfo = 0 then
    match ticker with
    | Except.ok (some t) => t
    | _ => afterInfo
  else afterInfo

/-- Lines 173-182: liquidation price, adapter field first, then the
`Info["position"]["liquidationPx"]` fallback, default 0. -/
def resolveLiquidationPrice (p : RawPosition) : ℚ :=
  match p.liquidationPrice with
  | some lp => lp
  | none =>
    match p.info with
    | some inf =>
      match inf.position with
      | some pd => pd.liquidationPx.getD 0
      | none => 0
    | none => 0

/-- Lines 260-268: explicit stop-loss / take-profit typing from the
`orderType` string.  Returns `(isStopLoss, isTakeProfit)`. -/
def explicitType (ot : Option String) : Bool × Bool :=
  match ot with
  | some t =>
    if t = "Stop Market" ∨ t = "Stop Limit" then (true, false)
    else if t = "Take Profit Market" ∨ t = "Take Profit" then (false, true)
    else (false, false)
  | none => (false, false)

/-- Lines 271-278: trigger price extraction — a present non-zero `stopPrice`
wins, else a present non-zero `triggerPrice`, else 0. -/
def triggerPriceOf (o : RawOrder) : ℚ :=
  match o.info with
  | some i =>
    match i.stopPrice with
    | some sp =>
      if sp = 0 then
        match i.triggerPrice with
        | some t => if t = 0 then 0 else t
        | none => 0
      else sp
    | none =>
      match i.triggerPrice with
      | some t => if t = 0 then 0 else t
      | none => 0
  | none => 0

/-- Lines 280-283: the order id, parsed from the id string with
`fmt.Sscanf "%d"`; the `int64` stays 0 when the id is nil or unparseable. -/
def orderIdOf (o : RawOrder) : Int :=
  match o.id with
  | some s => (sscanfInt s).getD 0
  | none => 0

/-- The classification facts the order loop (lines 244-309) derives for one
open order of a position with the given quantity and entry price. -/
structure OrderFacts where
  isTriggerOrder : Bool
  isStopLoss : Bool
  isTakeProfit : Bool
  triggerPrice : ℚ
  orderId : Int
deriving DecidableEq, Repr

/-- Lines 244-309: derive the trigger/SL/TP facts for one order.  Explicit
typing from `orderType` comes first; when the order is an untyped trigger order
with a non-zero trigger price, the role is inferred from position direction and
order side (lines 286-309). -/
def orderFacts (quantity entryPrice : ℚ) (o : RawOrder) : OrderFacts :=
  let isTriggerOrder : Bool :=
    match o.info with
    | some i => match i.isTrigger with
      | some true => true
      | _ => false
    | none => false
  let et : Bool × Bool :=
    match o.info with
    | some i => explicitType i.orderType
    | none => (false, false)
  let tp := triggerPriceOf o
  let inferred : Bool × Bool :=
    if isTriggerOrder = true ∧ tp ≠ 0 ∧ et.1 = false ∧ et.2 = false then
      match o.side with
      | some side =>
        if quantity > 0 then
          if side = "sell" then
            if tp < entryPrice then (true, false) else (false, true)
          else et
        else if quantity < 0 then
          if side = "buy" then
            if tp > entryPrice then (true, false) else (false, true)
          else et
        else et
      | none => et
    else et
  { isTriggerOrder := isTriggerOrder
    isStopLoss := inferred.1
    isTakeProfit := inferred.2
    triggerPrice := tp
    orderId := orderIdOf o }

/-- The exit-plan state the order loop threads: profit target, stop loss and
the two linked order ids. -/
structure ExitState where
  profitTarget : ℚ
  stopLoss : ℚ
  slOid : Int
  tpOid : Int
deriving DecidableEq, Repr

/-- Lines 311-318: one iteration of the order loop — a stop-loss order
overwrites the stop loss and its id, else a take-profit order overwrites the
profit target and its id. -/
def applyOrder (quantity entryPrice : ℚ) (st : ExitState) (o : RawOrder) : ExitState :=
  let f := orderFacts quantity entryPrice o
  if f.isStopLoss then { st with stopLoss := f.triggerPrice, slOid := f.orderId }
  else if f.isTakeProfit then { st with profitTarget := f.triggerPrice, tpOid := f.orderId }
  else st

/-- Lines 120-342: convert one raw ccxt position (with its per-position adapter
responses) into the normalized `Position` record. -/
def processPosition (f : RawPositionFetch) : Position :=
  let p := f.pos
  let symbol := p.symbol.getD ""
  let quantity := p.contracts.getD 0
  let entryPrice := p.entryPrice.getD 0
  let currentPrice := resolveCurrentPrice p f.ticker
  let liquidationPrice := resolveLiquidationPrice p
  let unrealizedPnl := p.unrealizedPnl.getD 0
  let leverage := p.leverage.getD 0
  let notional := p.notional.getD 0
  let slOidInit : Int :=
    match p.info.bind PosInfo.sl_oid with
    | some v => ratToInt64 v
    | none => -1
  let tpOidInit : Int :=
    match p.info.bind PosInfo.tp_oid with
    | some v => ratToInt64 v
    | none => -1
  let entryOid : Int :=
    match p.info.bind PosInfo.entry_oid with
    | some v => ratToInt64 v
    | none => -1
  let confidence := (p.info.bind PosInfo.confidence).getD 0
  let riskUsd := (p.info.bind PosInfo.risk_usd).getD 0
  let profitTargetInit := ((p.info.bind PosInfo.exit_plan).bind InfoExitPlan.profit_target).getD 0
  let stopLossInit := ((p.info.bind PosInfo.exit_plan).bind InfoExitPlan.stop_loss).getD 0
  let invalidationCondition :=
    ((p.info.bind PosInfo.exit_plan).bind InfoExitPlan.invalidation_condition).getD ""
  let st0 : ExitState :=
    { profitTarget := profitTargetInit, stopLoss := stopLossInit
      slOid := slOidInit, tpOid := tpOidInit }
  let st :=
    match f.openOrders with
    | Except.ok orders => orders.foldl (applyOrder quantity entryPrice) st0
    | Except.error _ => st0
  { symbol := symbol
    quantity := quantity
    entryPrice := entryPrice
    currentPrice := currentPrice
    liquidationPrice := liquidationPrice
    unrealizedPnl := unrealizedPnl
    leverage := leverage
    exitPlan :=
      { profitTarget := st.profitTarget
        stopLoss := st.stopLoss
        invalidationCondition := invalidationCondition }
    confidence := confidence
    riskUsd := riskUsd
    slOid := st.slOid
    tpOid := st.tpOid
    waitForFill := false
    entryOid := entryOid
    notionalUsd := notional }

/-- Lines 95-362: `GetAccountInfo`.  Balance or positions fetch failures return
a wrapped error; everything downstream is total. -/
def getAccountInfo (f : AccountFetches) : Except String AccountInfo :=
  match f.balanceFreeUSDC with
  | Except.error e => Except.error ("error fetching balance: " ++ e)
  | Except.ok freeUSDC =>
    let availableCash := freeUSDC.getD 0
    match f.positions with
    | Except.error e => Except.error ("error fetching positions: " ++ e)
    | Except.ok ps =>
      let customPositions := ps.map processPosition
      let totalNotional := (ps.map fun pf => pf.pos.notional.getD 0).sum
      Except.ok
        { totalReturnPercent := 0
          availableCash := availableCash
          currentAccountValue := availableCash + totalNotional
          positions := customPositions
          sharpeRatio := 0 }

/-! ## Market data model (`marketdata` package)

The technical-indicator functions the source calls live in the third-party
`go-talib` library, whose source is not part of this repository.  They are
modelled from the spec (§4.1), with the library's output alignment (output
length equals input length, zeros before the warm-up index) and its behaviour
on insufficient input: the library indexes past the end of the slice and the
process panics, modelled as `GoResult.crashed`. -/

/-- One OHLCV candle.  Only the columns `GetMarketData` reads (close, high,
low, volume) are modelled; timestamp and open are never accessed. -/
structure Candle where
  high : ℚ
  low : ℚ
  close : ℚ
  volume : ℚ
deriving DecidableEq, Repr

/-- MarketData holds all the technical indicators and market data for a symbol. -/
structure MarketData where
  symbol : String
  closes1m : List ℚ
  ema20_1m : List ℚ
  macdHist_1m : List ℚ
  rsi7_1m : List ℚ
  rsi14_1m : List ℚ
  currentPrice : ℚ
  currentEMA20 : ℚ
  currentMACD : ℚ
  currentRSI7 : ℚ
  closes4h : List ℚ
  highs4h : List ℚ
  lows4h : List ℚ
  volumes4h : List ℚ
  ema20_4h : List ℚ
  ema50_4h : List ℚ
  atr3_4h : List ℚ
  atr14_4h : List ℚ
  macdHist_4h : List ℚ
  rsi14_4h : List ℚ
  currentEMA20_4h : ℚ
  currentEMA50_4h : ℚ
  currentATR3 : ℚ
  currentATR14 : ℚ
  currentVolume : ℚ
  avgVolume : ℚ
  openInterest : ℚ
  fundingRate : ℚ
deriving DecidableEq, Repr

/-- Recursive exponential smoothing: each output is
`(x - prev) * k + prev` for smoothing factor `k`. -/
def emaFrom (k : ℚ) (prev : ℚ) : List ℚ → List ℚ
  | [] => []
  | x :: xs =>
    let next := (x - prev) * k + prev
    next :: emaFrom k next xs

/-- Modelled from the spec: §4.1's EMA definition, standing in for the missing
`talib.Ema` (third-party go-talib, not under `src/`): seed = simple average of the first `period` values, then
recursive smoothing with factor `2/(period+1)`; output aligned to the input
with zeros before index `period - 1`.  Crashes (as the library does, by
indexing past the slice end) when the input is shorter than `period`. -/
def ema (closes : List ℚ) (period : ℕ) : GoResult (List ℚ) :=
  if closes.length < period ∨ period = 0 then GoResult.crashed
  else
    let seed := (closes.take period).sum / (period : ℚ)
    let k : ℚ := 2 / ((period : ℚ) + 1)
    GoResult.ok (List.replicate (period - 1) 0 ++ seed :: emaFrom k seed (closes.drop period))

/-- RSI value from a (Wilder-smoothed) average gain and average loss; by the
spec, when the average loss is 0 the output is 100. -/
def rsiOf (g l : ℚ) : ℚ :=
  if l = 0 then 100 else 100 - 100 / (1 + g / l)

/-- Wilder smoothing steps over a list of (gain, loss) pairs, emitting the RSI
value after each step. -/
def rsiSteps (period : ℕ) (g l : ℚ) : List (ℚ × ℚ) → List ℚ
  | [] => []
  | d :: ds =>
    let g2 := (g * ((period : ℚ) - 1) + d.1) / (period : ℚ)
    let l2 := (l * ((period : ℚ) - 1) + d.2) / (period : ℚ)
    rsiOf g2 l2 :: rsiSteps period g2 l2 ds

/-- Modelled from the spec: §4.1's RSI definition, standing in for the missing
`talib.Rsi` (third-party go-talib, not under `src/`): classic Wilder RSI — gains/losses of consecutive differences,
first average simple, then Wilder smoothing; output aligned to the input with
zeros before index `period`.  Crashes when the input is shorter than
`period + 1`. -/
def rsi (closes : List ℚ) (period : ℕ) : GoResult (List ℚ) :=
  if closes.length < period + 1 ∨ period = 0 then GoResult.crashed
  else
    let ds := (closes.zip closes.tail).map fun pr => pr.2 - pr.1
    let gl := ds.map fun d => (max d 0, max (-d) 0)
    let g0 := ((gl.take period).map Prod.fst).sum / (period : ℚ)
    let l0 := ((gl.take period).map Prod.snd).sum / (period : ℚ)
    GoResult.ok (List.replicate period 0 ++ rsiOf g0 l0 :: rsiSteps period g0 l0 (gl.drop period))

/-- Modelled from the spec: §4.1's MACD definition, standing in for the missing
`talib.Macd` (third-party go-talib, not under `src/`): macd line = EMA(fast) − EMA(slow), signal = EMA(signal) of
the macd line, histogram = macd − signal.  Crashes when the input is shorter
than the library's lookback `slow + signal - 1`. -/
def macd (closes : List ℚ) (fast slow signal : ℕ) :
    GoResult (List ℚ × List ℚ × List ℚ) :=
  if closes.length < slow + signal - 1 ∨ fast = 0 ∨ slow = 0 ∨ signal = 0 then
    GoResult.crashed
  else
    match ema closes fast, ema closes slow with
    | GoResult.ok ef, GoResult.ok es =>
      let line := List.zipWith (· - ·) ef es
      match ema line signal with
      | GoResult.ok sig =>
        GoResult.ok (line, sig, List.zipWith (· - ·) line sig)
      | _ => GoResult.crashed
    | _, _ => GoResult.crashed

/-- Wilder smoothing steps over a true-range list, emitting each smoothed
average. -/
def atrSteps (period : ℕ) (a : ℚ) : List ℚ → List ℚ
  | [] => []
  | t :: ts =>
    let a2 := (a * ((period : ℚ) - 1) + t) / (period : ℚ)
    a2 :: atrSteps period a2 ts

/-- Modelled from the spec: §4.1's ATR definition, standing in for the missing
`talib.Atr` (third-party go-talib, not under `src/`): true range `max(high − low, |high − prevClose|,
|low − prevClose|)`, first average simple, then Wilder smoothing; output
aligned to the input with zeros before index `period`.  Crashes when the input
is shorter than `period + 1`. -/
def atr (highs lows closes : List ℚ) (period : ℕ) : GoResult (List ℚ) :=
  if closes.length < period + 1 ∨ period = 0 then GoResult.crashed
  else
    let trs := (highs.tail.zip (lows.tail.zip closes)).map fun hlc =>
      max (hlc.1 - hlc.2.1) (max |hlc.1 - hlc.2.2| |hlc.2.1 - hlc.2.2|)
    let a0 := (trs.take period).sum / (period : ℚ)
    GoResult.ok (List.replicate period 0 ++ a0 :: atrSteps period a0 (trs.drop period))

/-- Modelled from the spec: §4.1's SMA definition, standing in for the missing
`talib.Sma` (third-party go-talib, not under `src/`): simple moving average over trailing windows of `period`
values; output aligned to the input with zeros before index `period - 1`.
Crashes when the input is shorter than `period`. -/
def sma (values : List ℚ) (period : ℕ) : GoResult (List ℚ) :=
  if values.length < period ∨ period = 0 then GoResult.crashed
  else
    GoResult.ok ((List.range values.length).map fun i =>
      if i + 1 < period then 0
      else ((values.drop (i + 1 - period)).take period).sum / (period : ℚ))

/-- Go slice indexing `xs[len(xs)-1]` (lines 139-142, 175-183 of the
marketdata file): panics on an empty slice. -/
def lastOrCrash (xs : List ℚ) : GoResult ℚ :=
  match xs.getLast? with
  | some x => GoResult.ok x
  | none => GoResult.crashed

/-- Outcome of one of the recover-guarded supplementary calls
(`FetchOpenInterest` / `FetchFundingRate`): a normal return carrying a possibly
nil value pointer, an error return, or a panic inside the call (recovered by
the deferred handler). -/
inductive FetchOutcome where
  | ok : Option ℚ → FetchOutcome
  | err : String → FetchOutcome
  | crashed : FetchOutcome
deriving DecidableEq, Repr

/-- A supplementary fetch produced no usable value: it errored, panicked, or
returned a nil value pointer. -/
def FetchOutcome.failed : FetchOutcome → Prop
  | FetchOutcome.ok (some _) => False
  | _ => True

/-- Lines 186-214: the value a recover-guarded supplementary fetch contributes;
every failure mode leaves the zero value in place. -/
def supplementaryValue : FetchOutcome → ℚ
  | FetchOutcome.ok (some v) => v
  | _ => 0

/-- The adapter's responses to the calls `GetMarketData` makes for one symbol. -/
structure MarketFetches where
  symbol : String
  ohlcv1m : Except String (List Candle)
  ohlcv4h : Except String (List Candle)
  openInterest : FetchOutcome
  fundingRate : FetchOutcome
deriving Repr

/-- The 1m-stage results (lines 126-142): series and current scalars. -/
structure Stage1m where
  closes1m : List ℚ
  ema20 : List ℚ
  macdHist : List ℚ
  rsi7s : List ℚ
  rsi14s : List ℚ
  currentEma20 : ℚ
  currentMacd : ℚ
  currentRsi7 : ℚ
  currentPrice : ℚ
deriving DecidableEq, Repr

/-- Lines 126-142: extract 1m closes, compute the 1m indicators, and take each
series' last element as the current scalar. -/
def stage1m (ohlcv1m : List Candle) : GoResult Stage1m :=
  let closes1m := ohlcv1m.map Candle.close
  GoResult.bind (ema closes1m 20) fun ema20 =>
  GoResult.bind (macd closes1m 12 26 9) fun m =>
  GoResult.bind (rsi closes1m 7) fun rsi7s =>
  GoResult.bind (rsi closes1m 14) fun rsi14s =>
  GoResult.bind (lastOrCrash ema20) fun currentEma20 =>
  GoResult.bind (lastOrCrash m.2.2) fun currentMacd =>
  GoResult.bind (lastOrCrash rsi7s) fun currentRsi7 =>
  GoResult.bind (lastOrCrash closes1m) fun currentPrice =>
  GoResult.ok
    { closes1m := closes1m, ema20 := ema20, macdHist := m.2.2
      rsi7s := rsi7s, rsi14s := rsi14s
      currentEma20 := currentEma20, currentMacd := currentMacd
      currentRsi7 := currentRsi7, currentPrice := currentPrice }

/-- The 4h-stage results (lines 154-183): series and current scalars. -/
structure Stage4h where
  closes4h : List ℚ
  highs4h : List ℚ
  lows4h : List ℚ
  volumes4h : List ℚ
  ema20_4h : List ℚ
  ema50_4h : List ℚ
  atr3 : List ℚ
  atr14 : List ℚ
  macdHist4h : List ℚ
  rsi14_4h : List ℚ
  currentEma20_4h : ℚ
  currentEma50_4h : ℚ
  currentAtr3 : ℚ
  currentAtr14 : ℚ
  currentVolume : ℚ
  currentAverageVolume : ℚ
deriving DecidableEq, Repr

/-- Lines 154-183: extract the 4h columns, compute the 4h indicators, and take
each series' last element as the current scalar. -/
def stage4h (ohlcv4h : List Candle) : GoResult Stage4h :=
  let closes4h := ohlcv4h.map Candle.close
  let highs4h := ohlcv4h.map Candle.high
  let lows4h := ohlcv4h.map Candle.low
  let volumes4h := ohlcv4h.map Candle.volume
  GoResult.bind (ema closes4h 20) fun ema20_4h =>
  GoResult.bind (ema closes4h 50) fun ema50_4h =>
  GoResult.bind (atr highs4h lows4h closes4h 3) fun atr3 =>
  GoResult.bind (atr highs4h lows4h closes4h 14) fun atr14 =>
  GoResult.bind (macd closes4h 12 26 9) fun m =>
  GoResult.bind (rsi closes4h 14) fun rsi14_4h =>
  GoResult.bind (lastOrCrash ema20_4h) fun currentEma20_4h =>
  GoResult.bind (lastOrCrash ema50_4h) fun currentEma50_4h =>
  GoResult.bind (lastOrCrash atr3) fun currentAtr3 =>
  GoResult.bind (lastOrCrash atr14) fun currentAtr14 =>
  GoResult.bind (lastOrCrash volumes4h) fun currentVolume =>
  GoResult.bind (sma volumes4h 20) fun averageVolume =>
  GoResult.bind (lastOrCrash averageVolume) fun currentAverageVolume =>
  GoResult.ok
    { closes4h := closes4h, highs4h := highs4h, lows4h := lows4h
      volumes4h := volumes4h, ema20_4h := ema20_4h, ema50_4h := ema50_4h
      atr3 := atr3, atr14 := atr14, macdHist4h := m.2.2, rsi14_4h := rsi14_4h
      currentEma20_4h := currentEma20_4h, currentEma50_4h := currentEma50_4h
      currentAtr3 := currentAtr3, currentAtr14 := currentAtr14
      currentVolume := currentVolume, currentAverageVolume := currentAverageVolume }

/-- Lines 111-246: `GetMarketData`.  A candle fetch failure returns a wrapped
error; the indicator stages may crash on insufficient history; the two
supplementary fetches are recover-guarded and contribute zero on any failure. -/
def getMarketData (f : MarketFetches) : GoResult MarketData :=
  match f.ohlcv1m with
  | Except.error e =>
    GoResult.err ("error fetching 1m data for " ++ f.symbol ++ ": " ++ e)
  | Except.ok ohlcv1m =>
    GoResult.bind (stage1m ohlcv1m) fun s1 =>
    match f.ohlcv4h with
    | Except.error e =>
      GoResult.err ("error fetching 4h data for " ++ f.symbol ++ ": " ++ e)
    | Except.ok ohlcv4h =>
      GoResult.bind (stage4h ohlcv4h) fun s4 =>
      GoResult.ok
        { symbol := f.symbol
          closes1m := s1.closes1m
          ema20_1m := s1.ema20
          macdHist_1m := s1.macdHist
          rsi7_1m := s1.rsi7s
          rsi14_1m := s1.rsi14s
          currentPrice := s1.currentPrice
          currentEMA20 := s1.currentEma20
          currentMACD := s1.currentMacd
          currentRSI7 := s1.currentRsi7
          closes4h := s4.closes4h
          highs4h := s4.highs4h
          lows4h := s4.lows4h
          volumes4h := s4.volumes4h
          ema20_4h := s4.ema20_4h
          ema50_4h := s4.ema50_4h
          atr3_4h := s4.atr3
          atr14_4h := s4.atr14
          macdHist_4h := s4.macdHist4h
          rsi14_4h := s4.rsi14_4h
          currentEMA20_4h := s4.currentEma20_4h
          currentEMA50_4h := s4.currentEma50_4h
          currentATR3 := s4.currentAtr3
          currentATR14 := s4.currentAtr14
          currentVolume := s4.currentVolume
          avgVolume := s4.currentAverageVolume
          openInterest := supplementaryValue f.openInterest
          fundingRate := supplementaryValue f.fundingRate }

/-! ## Market report formatter (`MarketData.Format`, lines 55-108)

The Go function writes the whole report to standard output with
`fmt.Printf`/`fmt.Println` and returns the empty string.  The model therefore
produces both the text written to stdout and the function's return value.
Number rendering follows Go's `fmt` fixed-precision verbs (round to nearest,
ties to even). -/

/-- Round to the nearest integer, ties to even, as Go's `strconv`-based
formatting does. -/
def roundHalfEven (q : ℚ) : Int :=
  let fl := Rat.floor q
  let frac := q - fl
  if frac < 1 / 2 then fl
  else if frac > 1 / 2 then fl + 1
  else if fl % 2 = 0 then fl else fl + 1

/-- Left-pad a numeral string with zeros to the given width. -/
def padZeros (width : ℕ) (s : String) : String :=
  String.mk (List.replicate (width - s.length) '0') ++ s

/-- Go's `%.<prec>f` for a value `q`: fixed-point with `prec` fractional
digits; a negative value keeps its sign even when it rounds to zero. -/
def fmtFixed (prec : ℕ) (q : ℚ) : String :=
  let scaled := roundHalfEven (q * (10 : ℚ) ^ prec)
  let sign := if q < 0 then "-" else ""
  let n := scaled.natAbs
  if prec = 0 then sign ++ toString n
  else sign ++ toString (n / 10 ^ prec) ++ "." ++ padZeros prec (toString (n % 10 ^ prec))

/-- Integer powers of ten in `ℚ`. -/
def tenPow : Int → ℚ
  | Int.ofNat n => (10 : ℚ) ^ n
  | Int.negSucc n => 1 / (10 : ℚ) ^ (n + 1)

/-- For `q > 0`, the exponent `e` with `10^e ≤ q < 10^(e+1)`. -/
def sciExp (q : ℚ) : Int :=
  let e0 : Int := (Nat.log 10 q.num.natAbs : Int) - (Nat.log 10 q.den : Int)
  if q < tenPow e0 then e0 - 1
  else if q < tenPow (e0 + 1) then e0
  else e0 + 1

/-- Render an exponent as Go's `%e` does: sign plus at least two digits. -/
def expDigits (e : Int) : String :=
  let s := if e < 0 then "-" else "+"
  let n := e.natAbs
  s ++ (if n < 10 then "0" ++ toString n else toString n)

/-- Go's `%.2e`: scientific notation with a two-fraction-digit mantissa. -/
def fmtSci2 (q : ℚ) : String :=
  if q = 0 then "0.00e+00"
  else
    let sign := if q < 0 then "-" else ""
    let aq := |q|
    let e := sciExp aq
    let scaled := roundHalfEven (aq / tenPow e * 100)
    let me := if scaled ≥ 1000 then ((100 : Int), e + 1) else (scaled, e)
    sign ++ toString (me.1.natAbs / 100) ++ "." ++ padZeros 2 (toString (me.1.natAbs % 100))
      ++ "e" ++ expDigits me.2

/-- Lines 249-257: safely get the last `n` values of a slice. -/
def getLastN (slice : List ℚ) (n : ℕ) : List ℚ :=
  if slice.length = 0 then []
  else
    let m := if n > slice.length then slice.length else n
    slice.drop (slice.length - m)

/-- Lines 260-273: format a float slice as `[a, b, c]` with `%.3f` entries. -/
def formatFloatSlice (slice : List ℚ) : String :=
  if slice.length = 0 then "[]"
  else "[" ++ String.intercalate ", " (slice.map (fmtFixed 3)) ++ "]"

/-- What a call to `MarketData.Format` produces: the text written to standard
output and the string it returns. -/
structure FormatOutput where
  printed : String
  returned : String
deriving DecidableEq, Repr

/-- Lines 55-108: `MarketData.Format`.  Every line of the report goes to
standard output via `fmt.Printf`/`fmt.Println`; the open-interest and
funding-rate lines are emitted only when the value is non-zero; the function
returns the empty string. -/
def MarketData.format (m : MarketData) : FormatOutput :=
  let oiPart :=
    if m.openInterest ≠ 0 then
      "Open Interest: Latest: " ++ fmtFixed 2 m.openInterest ++ " Average: "
        ++ fmtFixed 2 m.openInterest ++ "\n\n"
    else ""
  let frPart :=
    if m.fundingRate ≠ 0 then "Funding Rate: " ++ fmtSci2 m.fundingRate ++ "\n\n"
    else ""
  let printed :=
    "\n========== " ++ m.symbol ++ " Analysis ==========\n\n"
    ++ "current_price = " ++ fmtFixed 1 m.currentPrice
    ++ ", current_ema20 = " ++ fmtFixed 3 m.currentEMA20
    ++ ", current_macd = " ++ fmtFixed 3 m.currentMACD
    ++ ", current_rsi (7 period) = " ++ fmtFixed 3 m.currentRSI7 ++ "\n\n"
    ++ "In addition, here is the latest BTC open interest and funding rate for perps (the instrument you are trading):\n"
    ++ "\n"
    ++ oiPart
    ++ frPart
    ++ "Intraday series (by minute, oldest → latest):\n"
    ++ "\n"
    ++ "Mid prices: " ++ formatFloatSlice (getLastN m.closes1m 10) ++ "\n\n"
    ++ "EMA indicators (20‑period): " ++ formatFloatSlice (getLastN m.ema20_1m 10) ++ "\n\n"
    ++ "MACD indicators: " ++ formatFloatSlice (getLastN m.macdHist_1m 10) ++ "\n\n"
    ++ "RSI indicators (7‑Period): " ++ formatFloatSlice (getLastN m.rsi7_1m 10) ++ "\n\n"
    ++ "RSI indicators (14‑Period): " ++ formatFloatSlice (getLastN m.rsi14_1m 10) ++ "\n\n"
    ++ "Longer‑term context (4‑hour timeframe):\n"
    ++ "\n"
    ++ "20‑Period EMA: " ++ fmtFixed 3 m.currentEMA20_4h
    ++ " vs. 50‑Period EMA: " ++ fmtFixed 3 m.currentEMA50_4h ++ "\n\n"
    ++ "3‑Period ATR: " ++ fmtFixed 3 m.currentATR3
    ++ " vs. 14‑Period ATR: " ++ fmtFixed 3 m.currentATR14 ++ "\n\n"
    ++ "Current Volume: " ++ fmtFixed 3 m.currentVolume
    ++ " vs. Average Volume: " ++ fmtFixed 3 m.avgVolume ++ "\n\n"
    ++ "MACD indicators: " ++ formatFloatSlice (getLastN m.macdHist_4h 10) ++ "\n\n"
    ++ "RSI indicators (14‑Period): " ++ formatFloatSlice (getLastN m.rsi14_4h 10) ++ "\n\n"
    ++ "========================================\n"
  { printed := printed, returned := "" }

/-- A market snapshot with empty series and all-zero scalars, used as a
concrete evaluation point. -/
def mdZero : MarketData :=
  { symbol := "BTC/USDC:USDC"
    closes1m := [], ema20_1m := [], macdHist_1m := [], rsi7_1m := [], rsi14_1m := []
    currentPrice := 0, currentEMA20 := 0, currentMACD := 0, currentRSI7 := 0
    closes4h := [], highs4h := [], lows4h := [], volumes4h := []
    ema20_4h := [], ema50_4h := [], atr3_4h := [], atr14_4h := []
    macdHist_4h := [], rsi14_4h := []
    currentEMA20_4h := 0, currentEMA50_4h := 0, currentATR3 := 0, currentATR14 := 0
    currentVolume := 0, avgVolume := 0
    openInterest := 0, fundingRate := 0 }

/-! ## Concrete evaluation inputs -/

/-- An order-type string that is none of the four explicitly recognized
stop-loss / take-profit types (lines 262-266). -/
def untypedOrder (ot : Option String) : Prop :=
  ot ≠ some "Stop Market" ∧ ot ≠ some "Stop Limit" ∧
  ot ≠ some "Take Profit Market" ∧ ot ≠ some "Take Profit"

instance (ot : Option String) : Decidable (untypedOrder ot) := by
  unfold untypedOrder; infer_instance

/-- A raw position with mark price NaN and Hyperliquid metadata
`{position: {positionValue: 1000, szi: 10}}` (the spec's price-derivation
example). -/
def c1pos : RawPosition :=
  { symbol := some "BTC/USDC:USDC", contracts := some 1, entryPrice := some 95
    markPrice := some GoFloat.nan, liquidationPrice := none, unrealizedPnl := none
    leverage := none, notional := none
    info := some
      { position := some { positionValue := some 1000, szi := some 10, liquidationPx := none }
        sl_oid := none, tp_oid := none, entry_oid := none
        confidence := none, risk_usd := none, exit_plan := none } }

def c1fetch : RawPositionFetch :=
  { pos := c1pos, ticker := Except.ok none, openOrders := Except.ok [] }

/-- An untyped open sell-trigger order at price 90 with id "123". -/
def c2info : RawOrderInfo :=
  { isTrigger := some true, orderType := none, stopPrice := some 90, triggerPrice := none }

def c2orderSell : RawOrder :=
  { info := some c2info, id := some "123", side := some "sell" }

/-- An untyped open buy-trigger order at price 110 with id "456". -/
def c2infoBuy : RawOrderInfo :=
  { isTrigger := some true, orderType := none, stopPrice := some 110, triggerPrice := none }

def c2orderBuy : RawOrder :=
  { info := some c2infoBuy, id := some "456", side := some "buy" }

def c2state : ExitState :=
  { profitTarget := 0, stopLoss := 0, slOid := -1, tpOid := -1 }

/-- A long raw position (quantity +2, entry 100) whose open orders contain the
untyped sell trigger at 90. -/
def c2fetchLong : RawPositionFetch :=
  { pos :=
      { symbol := some "BTC/USDC:USDC", contracts := some 2, entryPrice := some 100
        markPrice := some (GoFloat.val 101), liquidationPrice := none
        unrealizedPnl := none, leverage := none, notional := none, info := none }
    ticker := Except.ok none
    openOrders := Except.ok [c2orderSell] }

/-- A short raw position (quantity -2, entry 100) whose open orders contain the
untyped buy trigger at 110. -/
def c2fetchShort : RawPositionFetch :=
  { pos :=
      { symbol := some "BTC/USDC:USDC", contracts := some (-2), entryPrice := some 100
        markPrice := some (GoFloat.val 101), liquidationPrice := none
        unrealizedPnl := none, leverage := none, notional := none, info := none }
    ticker := Except.ok none
    openOrders := Except.ok [c2orderBuy] }

/-- An untyped sell trigger exactly at the entry price 100. -/
def c9orderSell : RawOrder :=
  { info := some { isTrigger := some true, orderType := none
                   stopPrice := some 100, triggerPrice := none }
    id := some "7", side := some "sell" }

/-- An untyped buy trigger exactly at the entry price 100. -/
def c9orderBuy : RawOrder :=
  { info := some { isTrigger := some true, orderType := none
                   stopPrice := some 100, triggerPrice := none }
    id := some "8", side := some "buy" }

/-- An explicitly typed stop order whose id string is not a decimal number. -/
def c10order : RawOrder :=
  { info := some { isTrigger := some true, orderType := some "Stop Market"
                   stopPrice := some 80, triggerPrice := none }
    id := some "abc", side := some "sell" }

/-- An explicitly typed take-profit order with a nil id. -/
def c10orderTp : RawOrder :=
  { info := some { isTrigger := some true, orderType := some "Take Profit"
                   stopPrice := some 120, triggerPrice := none }
    id := none, side := some "sell" }

/-- A raw position fetch carrying only a venue-reported notional of 7. -/
def c5fetch : RawPositionFetch :=
  { pos :=
      { symbol := some "BTC/USDC:USDC", contracts := some 1, entryPrice := some 100
        markPrice := some (GoFloat.val 101), liquidationPrice := none
        unrealizedPnl := none, leverage := none, notional := some 7, info := none }
    ticker := Except.ok none
    openOrders := Except.ok [] }

def accEmpty : AccountFetches :=
  { balanceFreeUSDC := Except.ok (some 5), positions := Except.ok [] }

def accOne : AccountFetches :=
  { balanceFreeUSDC := Except.ok (some 5), positions := Except.ok [c5fetch] }

/-- A constant candle. -/
def cdl : Candle := { high := 2, low := 1, close := 1, volume := 3 }

/-- Market fetches whose candle calls succeed with zero candles. -/
def emptyFetches : MarketFetches :=
  { symbol := "BTC/USDC:USDC", ohlcv1m := Except.ok [], ohlcv4h := Except.ok []
    openInterest := FetchOutcome.ok none, fundingRate := FetchOutcome.ok none }

/-- Market fetches whose 1m candle call succeeds with only five candles. -/
def fiveFetches : MarketFetches :=
  { symbol := "BTC/USDC:USDC", ohlcv1m := Except.ok (List.replicate 5 cdl)
    ohlcv4h := Except.ok (List.replicate 50 cdl)
    openInterest := FetchOutcome.ok none, fundingRate := FetchOutcome.ok none }

/-- Market fetches with enough 1m candles but a short 4h history. -/
def shortFourFetches : MarketFetches :=
  { symbol := "BTC/USDC:USDC", ohlcv1m := Except.ok (List.replicate 34 cdl)
    ohlcv4h := Except.ok (List.replicate 10 cdl)
    openInterest := FetchOutcome.ok none, fundingRate := FetchOutcome.ok none }

/-- Market fetches with sufficient candles whose supplementary calls fail
(open interest errors, funding rate panics). -/
def suppFailFetches : MarketFetches :=
  { symbol := "BTC/USDC:USDC", ohlcv1m := Except.ok (List.replicate 34 cdl)
    ohlcv4h := Except.ok (List.replicate 50 cdl)
    openInterest := FetchOutcome.err "open interest not available"
    fundingRate := FetchOutcome.crashed }

/-- Market fetches whose 1m candle fetch fails. -/
def m1FailFetches : MarketFetches :=
  { symbol := "BTC/USDC:USDC", ohlcv1m := Except.error "timeout"
    ohlcv4h := Except.ok (List.replicate 50 cdl)
    openInterest := FetchOutcome.ok none, fundingRate := FetchOutcome.ok none }

/-- Market fetches whose 4h candle fetch fails after a good 1m fetch. -/
def m4FailFetches : MarketFetches :=
  { symbol := "BTC/USDC:USDC", ohlcv1m := Except.ok (List.replicate 34 cdl)
    ohlcv4h := Except.error "timeout"
    openInterest := FetchOutcome.ok none, fundingRate := FetchOutcome.ok none }

def accBalanceFail : AccountFetches :=
  { balanceFreeUSDC := Except.error "boom", positions := Except.ok [] }

def accPositionsFail : AccountFetches :=
  { balanceFreeUSDC := Except.ok (some 5), positions := Except.error "boom" }

/-- The normalized position `processPosition` produces for `c5fetch`. -/
def c5pos : Position :=
  { symbol := "BTC/USDC:USDC", quantity := 1, entryPrice := 100, currentPrice := 101
    liquidationPrice := 0, unrealizedPnl := 0, leverage := 0
    exitPlan := { profitTarget := 0, stopLoss := 0, invalidationCondition := "" }
    confidence := 0, riskUsd := 0, slOid := -1, tpOid := -1
    waitForFill := false, entryOid := -1, notionalUsd := 7 }

/-- The account snapshot `getAccountInfo` produces for `accOne`. -/
def c5ai : AccountInfo :=
  { totalReturnPercent := 0, availableCash := 5, currentAccountValue := 12
    positions := [c5pos], sharpeRatio := 0 }

/-- The account snapshot `getAccountInfo` produces for `accEmpty`. -/
def accEmptyAi : AccountInfo :=
  { totalReturnPercent := 0, availableCash := 5, currentAccountValue := 5
    positions := [], sharpeRatio := 0 }

instance {ε α : Type} [DecidableEq ε] [DecidableEq α] : DecidableEq (Except ε α) :=
  fun a b =>
  match a, b with
  | Except.error x, Except.error y =>
    if h : x = y then isTrue (h ▸ rfl) else isFalse fun hc => h (Except.error.inj hc)
  | Except.error _, Except.ok _ => isFalse fun hc => Except.noConfusion hc
  | Except.ok _, Except.error _ => isFalse fun hc => Except.noConfusion hc
  | Except.ok x, Except.ok y =>
    if h : x = y then isTrue (h ▸ rfl) else isFalse fun hc => h (Except.ok.inj hc)

/-! ## Basic lemmas -/

theorem GoResult.bind_ok (a : α) (f : α → GoResult β) :
    GoResult.bind (GoResult.ok a) f = f a := rfl

theorem GoResult.bind_err (e : String) (f : α → GoResult β) :
    GoResult.bind (GoResult.err e) f = GoResult.err e := rfl

theorem GoResult.bind_crashed (f : α → GoResult β) :
    GoResult.bind (GoResult.crashed) f = GoResult.crashed := rfl

theorem emaFrom_length (k : ℚ) (a : ℚ) (xs : List ℚ) :
    (emaFrom k a xs).length = xs.length := by
  induction xs generalizing a with
  | nil => rfl
  | cons x xs ih => simp [emaFrom, ih]

theorem rsiSteps_length (period : ℕ) (g l : ℚ) (ds : List (ℚ × ℚ)) :
    (rsiSteps period g l ds).length = ds.length := by
  induction ds generalizing g l with
  | nil => rfl
  | cons d ds ih => simp [rsiSteps, ih]

theorem atrSteps_length (period : ℕ) (a : ℚ) (ts : List ℚ) :
    (atrSteps period a ts).length = ts.length := by
  induction ts generalizing a with
  | nil => rfl
  | cons t ts ih => simp [atrSteps, ih]

theorem ema_ok (closes : List ℚ) (period : ℕ)
    (h1 : 0 < period) (h2 : period ≤ closes.length) :
    ∃ l, ema closes period = GoResult.ok l ∧ l.length = closes.length := by
  have hcond : ¬(closes.length < period ∨ period = 0) := by omega
  refine ⟨_, by rw [ema, if_neg hcond], ?_⟩
  simp [emaFrom_length]
  omega

theorem ema_crash (closes : List ℚ) (period : ℕ) (h : closes.length < period) :
    ema closes period = GoResult.crashed := by
  rw [ema, if_pos (Or.inl h)]

theorem rsi_ok (closes : List ℚ) (period : ℕ)
    (h1 : 0 < period) (h2 : period + 1 ≤ closes.length) :
    ∃ l, rsi closes period = GoResult.ok l ∧ l.length = closes.length := by
  have hcond : ¬(closes.length < period + 1 ∨ period = 0) := by omega
  refine ⟨_, by rw [rsi, if_neg hcond], ?_⟩
  simp [rsiSteps_length, List.length_zip, List.length_tail]
  omega

theorem macd_ok (closes : List ℚ) (fast slow signal : ℕ)
    (hf : 0 < fast) (hs : 0 < slow) (hg : 0 < signal)
    (hfl : fast ≤ closes.length) (hsl : slow ≤ closes.length)
    (hlen : slow + signal - 1 ≤ closes.length) :
    ∃ a b c, macd closes fast slow signal = GoResult.ok (a, b, c) ∧
      c.length = closes.length := by
  have hcond : ¬(closes.length < slow + signal - 1 ∨ fast = 0 ∨ slow = 0 ∨ signal = 0) := by
    omega
  obtain ⟨ef, hef, hefl⟩ := ema_ok closes fast hf hfl
  obtain ⟨es, hes, hesl⟩ := ema_ok closes slow hs hsl
  have hline : (List.zipWith (· - ·) ef es).length = closes.length := by
    rw [List.length_zipWith, hefl, hesl]; omega
  obtain ⟨sig, hsig, hsigl⟩ :=
    ema_ok (List.zipWith (· - ·) ef es) signal hg (by omega)
  have hmac : macd closes fast slow signal =
      GoResult.ok (List.zipWith (· - ·) ef es, sig,
        List.zipWith (· - ·) (List.zipWith (· - ·) ef es) sig) := by
    rw [macd, if_neg hcond, hef, hes]
    simp only [hsig]
  refine ⟨_, _, _, hmac, ?_⟩
  rw [List.length_zipWith, hline, hsigl, hline]
  omega

theorem macd_crash (closes : List ℚ) (fast slow signal : ℕ)
    (h : closes.length < slow + signal - 1) :
    macd closes fast slow signal = GoResult.crashed := by
  rw [macd, if_pos (Or.inl h)]

theorem atr_ok (highs lows closes : List ℚ) (period : ℕ)
    (h1 : 0 < period) (h2 : period + 1 ≤ closes.length)
    (hh : highs.length = closes.length) (hl : lows.length = closes.length) :
    ∃ l, atr highs lows closes period = GoResult.ok l ∧ l.length = closes.length := by
  have hcond : ¬(closes.length < period + 1 ∨ period = 0) := by omega
  refine ⟨_, by rw [atr, if_neg hcond], ?_⟩
  simp [atrSteps_length, List.length_zip, List.length_tail, hh, hl]
  omega

theorem sma_ok (values : List ℚ) (period : ℕ)
    (h1 : 0 < period) (h2 : period ≤ values.length) :
    ∃ l, sma values period = GoResult.ok l ∧ l.length = values.length := by
  have hcond : ¬(values.length < period ∨ period = 0) := by omega
  refine ⟨_, by rw [sma, if_neg hcond], ?_⟩
  simp

theorem lastOrCrash_ok (xs : List ℚ) (h : 0 < xs.length) :
    ∃ x, lastOrCrash xs = GoResult.ok x := by
  match xs, h with
  | x :: rest, _ =>
    have : (x :: rest).getLast? = some ((x :: rest).getLast (by simp)) :=
      List.getLast?_eq_getLast _ _
    exact ⟨_, by rw [lastOrCrash, this]⟩

theorem stage1m_ok (ohlcv : List Candle) (h : 34 ≤ ohlcv.length) :
    ∃ s, stage1m ohlcv = GoResult.ok s := by
  have hlen : (ohlcv.map Candle.close).length = ohlcv.length := List.length_map _ _
  obtain ⟨e20, he20, he20l⟩ := ema_ok (ohlcv.map Candle.close) 20 (by omega) (by omega)
  obtain ⟨a, b, c, hm, hcl⟩ :=
    macd_ok (ohlcv.map Candle.close) 12 26 9 (by omega) (by omega) (by omega)
      (by omega) (by omega) (by omega)
  obtain ⟨r7, hr7, hr7l⟩ := rsi_ok (ohlcv.map Candle.close) 7 (by omega) (by omega)
  obtain ⟨r14, hr14, hr14l⟩ := rsi_ok (ohlcv.map Candle.close) 14 (by omega) (by omega)
  obtain ⟨v1, hv1⟩ := lastOrCrash_ok e20 (by omega)
  obtain ⟨v2, hv2⟩ := lastOrCrash_ok c (by omega)
  obtain ⟨v3, hv3⟩ := lastOrCrash_ok r7 (by omega)
  obtain ⟨v4, hv4⟩ := lastOrCrash_ok (ohlcv.map Candle.close) (by omega)
  refine ⟨{ closes1m := ohlcv.map Candle.close, ema20 := e20, macdHist := c
            rsi7s := r7, rsi14s := r14, currentEma20 := v1, currentMacd := v2
            currentRsi7 := v3, currentPrice := v4 }, ?_⟩
  simp only [stage1m, he20, hm, hr7, hr14, hv1, hv2, hv3, hv4, GoResult.bind_ok]

theorem stage1m_short_crashes (ohlcv : List Candle) (h : ohlcv.length < 34) :
    stage1m ohlcv = GoResult.crashed := by
  have hlen : (ohlcv.map Candle.close).length = ohlcv.length := List.length_map _ _
  by_cases h20 : ohlcv.length < 20
  · have hcr := ema_crash (ohlcv.map Candle.close) 20 (by omega)
    simp only [stage1m, hcr, GoResult.bind_crashed]
  · obtain ⟨e20, he20, _⟩ := ema_ok (ohlcv.map Candle.close) 20 (by omega) (by omega)
    have hm := macd_crash (ohlcv.map Candle.close) 12 26 9 (by omega)
    simp only [stage1m, he20, GoResult.bind_ok, hm, GoResult.bind_crashed]

theorem stage4h_ok (ohlcv : List Candle) (h : 50 ≤ ohlcv.length) :
    ∃ s, stage4h ohlcv = GoResult.ok s := by
  have hc : (ohlcv.map Candle.close).length = ohlcv.length := List.length_map _ _
  have hhi : (ohlcv.map Candle.high).length = ohlcv.length := List.length_map _ _
  have hlo : (ohlcv.map Candle.low).length = ohlcv.length := List.length_map _ _
  have hvo : (ohlcv.map Candle.volume).length = ohlcv.length := List.length_map _ _
  obtain ⟨e20, he20, he20l⟩ := ema_ok (ohlcv.map Candle.close) 20 (by omega) (by omega)
  obtain ⟨e50, he50, he50l⟩ := ema_ok (ohlcv.map Candle.close) 50 (by omega) (by omega)
  obtain ⟨a3, ha3, ha3l⟩ :=
    atr_ok (ohlcv.map Candle.high) (ohlcv.map Candle.low) (ohlcv.map Candle.close) 3
      (by omega) (by omega) (by omega) (by omega)
  obtain ⟨a14, ha14, ha14l⟩ :=
    atr_ok (ohlcv.map Candle.high) (ohlcv.map Candle.low) (ohlcv.map Candle.close) 14
      (by omega) (by omega) (by omega) (by omega)
  obtain ⟨a, b, c, hm, hcl⟩ :=
    macd_ok (ohlcv.map Candle.close) 12 26 9 (by omega) (by omega) (by omega)
      (by omega) (by omega) (by omega)
  obtain ⟨r14, hr14, hr14l⟩ := rsi_ok (ohlcv.map Candle.close) 14 (by omega) (by omega)
  obtain ⟨sv, hsv, hsvl⟩ := sma_ok (ohlcv.map Candle.volume) 20 (by omega) (by omega)
  obtain ⟨v1, hv1⟩ := lastOrCrash_ok e20 (by omega)
  obtain ⟨v2, hv2⟩ := lastOrCrash_ok e50 (by omega)
  obtain ⟨v3, hv3⟩ := lastOrCrash_ok a3 (by omega)
  obtain ⟨v4, hv4⟩ := lastOrCrash_ok a14 (by omega)
  obtain ⟨v5, hv5⟩ := lastOrCrash_ok (ohlcv.map Candle.volume) (by omega)
  obtain ⟨v6, hv6⟩ := lastOrCrash_ok sv (by omega)
  refine ⟨{ closes4h := ohlcv.map Candle.close, highs4h := ohlcv.map Candle.high
            lows4h := ohlcv.map Candle.low, volumes4h := ohlcv.map Candle.volume
            ema20_4h := e20, ema50_4h := e50, atr3 := a3, atr14 := a14
            macdHist4h := c, rsi14_4h := r14, currentEma20_4h := v1
            currentEma50_4h := v2, currentAtr3 := v3, currentAtr14 := v4
            currentVolume := v5, currentAverageVolume := v6 }, ?_⟩
  simp only [stage4h, he20, he50, ha3, ha14, hm, hr14, hsv, hv1, hv2, hv3, hv4, hv5, hv6,
    GoResult.bind_ok]

theorem stage4h_short_crashes (ohlcv : List Candle) (h : ohlcv.length < 50) :
    stage4h ohlcv = GoResult.crashed := by
  have hc : (ohlcv.map Candle.close).length = ohlcv.length := List.length_map _ _
  by_cases h20 : ohlcv.length < 20
  · have hcr := ema_crash (ohlcv.map Candle.close) 20 (by omega)
    simp only [stage4h, hcr, GoResult.bind_crashed]
  · obtain ⟨e20, he20, _⟩ := ema_ok (ohlcv.map Candle.close) 20 (by omega) (by omega)
    have hcr := ema_crash (ohlcv.map Candle.close) 50 (by omega)
    simp only [stage4h, he20, GoResult.bind_ok, hcr, GoResult.bind_crashed]

theorem getMarketData_ok (f : MarketFetches) (c1 c4 : List Candle)
    (h1 : f.ohlcv1m = Except.ok c1) (h2 : 34 ≤ c1.length)
    (h3 : f.ohlcv4h = Except.ok c4) (h4 : 50 ≤ c4.length) :
    ∃ md, getMarketData f = GoResult.ok md ∧
      md.openInterest = supplementaryValue f.openInterest ∧
      md.fundingRate = supplementaryValue f.fundingRate := by
  obtain ⟨s1, hs1⟩ := stage1m_ok c1 h2
  obtain ⟨s4, hs4⟩ := stage4h_ok c4 h4
  have hmd : getMarketData f = GoResult.ok
      { symbol := f.symbol
        closes1m := s1.closes1m, ema20_1m := s1.ema20, macdHist_1m := s1.macdHist
        rsi7_1m := s1.rsi7s, rsi14_1m := s1.rsi14s
        currentPrice := s1.currentPrice, currentEMA20 := s1.currentEma20
        currentMACD := s1.currentMacd, currentRSI7 := s1.currentRsi7
        closes4h := s4.closes4h, highs4h := s4.highs4h, lows4h := s4.lows4h
        volumes4h := s4.volumes4h, ema20_4h := s4.ema20_4h, ema50_4h := s4.ema50_4h
        atr3_4h := s4.atr3, atr14_4h := s4.atr14, macdHist_4h := s4.macdHist4h
        rsi14_4h := s4.rsi14_4h, currentEMA20_4h := s4.currentEma20_4h
        currentEMA50_4h := s4.currentEma50_4h, currentATR3 := s4.currentAtr3
        currentATR14 := s4.currentAtr14, currentVolume := s4.currentVolume
        avgVolume := s4.currentAverageVolume
        openInterest := supplementaryValue f.openInterest
        fundingRate := supplementaryValue f.fundingRate } := by
    simp only [getMarketData, h1, h3, hs1, hs4, GoResult.bind_ok]
  exact ⟨_, hmd, rfl, rfl⟩

theorem getMarketData_short1m (f : MarketFetches) (c1 : List Candle)
    (h1 : f.ohlcv1m = Except.ok c1) (h2 : c1.length < 34) :
    getMarketData f = GoResult.crashed := by
  simp only [getMarketData, h1, stage1m_short_crashes c1 h2, GoResult.bind_crashed]

theorem getMarketData_short4h (f : MarketFetches) (c1 c4 : List Candle)
    (h1 : f.ohlcv1m = Except.ok c1) (h2 : 34 ≤ c1.length)
    (h3 : f.ohlcv4h = Except.ok c4) (h4 : c4.length < 50) :
    getMarketData f = GoResult.crashed := by
  obtain ⟨s1, hs1⟩ := stage1m_ok c1 h2
  simp only [getMarketData, h1, hs1, GoResult.bind_ok, h3,
    stage4h_short_crashes c4 h4, GoResult.bind_crashed]

/-! ## Account-side helper lemmas -/

theorem explicitType_of_untyped (ot : Option String) (h : untypedOrder ot) :
    explicitType ot = (false, false) := by
  obtain ⟨h1, h2, h3, h4⟩ := h
  cases ot with
  | none => rfl
  | some t =>
    have n1 : ¬(t = "Stop Market" ∨ t = "Stop Limit") := by
      rintro (rfl | rfl)
      · exact h1 rfl
      · exact h2 rfl
    have n2 : ¬(t = "Take Profit Market" ∨ t = "Take Profit") := by
      rintro (rfl | rfl)
      · exact h3 rfl
      · exact h4 rfl
    simp only [explicitType, if_neg n1, if_neg n2]

theorem orderFacts_orderId (q e : ℚ) (o : RawOrder) :
    (orderFacts q e o).orderId = orderIdOf o := rfl

theorem orderFacts_long_sell_sl (q e : ℚ) (o : RawOrder) (inf : RawOrderInfo)
    (hinfo : o.info = some inf) (htrig : inf.isTrigger = some true)
    (hu : untypedOrder inf.orderType) (htp : triggerPriceOf o ≠ 0)
    (hq : 0 < q) (hside : o.side = some "sell") (hlt : triggerPriceOf o < e) :
    orderFacts q e o =
      { isTriggerOrder := true, isStopLoss := true, isTakeProfit := false
        triggerPrice := triggerPriceOf o, orderId := orderIdOf o } := by
  have het := explicitType_of_untyped inf.orderType hu
  simp [orderFacts, hinfo, htrig, het, hside, htp, hq, hlt]

theorem orderFacts_long_sell_tp (q e : ℚ) (o : RawOrder) (inf : RawOrderInfo)
    (hinfo : o.info = some inf) (htrig : inf.isTrigger = some true)
    (hu : untypedOrder inf.orderType) (htp : triggerPriceOf o ≠ 0)
    (hq : 0 < q) (hside : o.side = some "sell") (hge : ¬triggerPriceOf o < e) :
    orderFacts q e o =
      { isTriggerOrder := true, isStopLoss := false, isTakeProfit := true
        triggerPrice := triggerPriceOf o, orderId := orderIdOf o } := by
  have het := explicitType_of_untyped inf.orderType hu
  simp [orderFacts, hinfo, htrig, het, hside, htp, hq, hge]

theorem orderFacts_short_buy_sl (q e : ℚ) (o : RawOrder) (inf : RawOrderInfo)
    (hinfo : o.info = some inf) (htrig : inf.isTrigger = some true)
    (hu : untypedOrder inf.orderType) (htp : triggerPriceOf o ≠ 0)
    (hq : q < 0) (hside : o.side = some "buy") (hgt : e < triggerPriceOf o) :
    orderFacts q e o =
      { isTriggerOrder := true, isStopLoss := true, isTakeProfit := false
        triggerPrice := triggerPriceOf o, orderId := orderIdOf o } := by
  have het := explicitType_of_untyped inf.orderType hu
  have hnp : ¬0 < q := not_lt.mpr hq.le
  simp [orderFacts, hinfo, htrig, het, hside, htp, hq, hnp, hgt]

theorem orderFacts_short_buy_tp (q e : ℚ) (o : RawOrder) (inf : RawOrderInfo)
    (hinfo : o.info = some inf) (htrig : inf.isTrigger = some true)
    (hu : untypedOrder inf.orderType) (htp : triggerPriceOf o ≠ 0)
    (hq : q < 0) (hside : o.side = some "buy") (hle : ¬e < triggerPriceOf o) :
    orderFacts q e o =
      { isTriggerOrder := true, isStopLoss := false, isTakeProfit := true
        triggerPrice := triggerPriceOf o, orderId := orderIdOf o } := by
  have het := explicitType_of_untyped inf.orderType hu
  have hnp : ¬0 < q := not_lt.mpr hq.le
  simp [orderFacts, hinfo, htrig, het, hside, htp, hq, hnp, hle]

theorem getAccountInfo_ok (f : AccountFetches) (free : Option ℚ)
    (ps : List RawPositionFetch)
    (hb : f.balanceFreeUSDC = Except.ok free) (hp : f.positions = Except.ok ps) :
    getAccountInfo f = Except.ok
      { totalReturnPercent := 0
        availableCash := free.getD 0
        currentAccountValue := free.getD 0 + (ps.map fun pf => pf.pos.notional.getD 0).sum
        positions := ps.map processPosition
        sharpeRatio := 0 } := by
  simp only [getAccountInfo, hb, hp]

theorem supplementaryValue_of_failed (o : FetchOutcome) (h : o.failed) :
    supplementaryValue o = 0 := by
  cases o with
  | ok v =>
    cases v with
    | some w => exact absurd h (by simp [FetchOutcome.failed])
    | none => rfl
  | err e => rfl
  | crashed => rfl

/-! ## Claim theorems -/

/-- C1: for every raw position processed by `GetAccountInfo`, the current price
is resolved by a strict priority chain: a present, finite (non-NaN), non-zero
mark price is used as-is; otherwise, when the venue `Info` map contains
`position.positionValue` and a non-zero `position.szi`, the derived price is
`positionValue / |szi|` and it is used whenever it is non-zero; otherwise the
live ticker lookup's last price is used.  Each later step runs only when every
earlier one produced no usable (non-zero) value. -/
theorem price_resolution_chain (f : RawPositionFetch) :
    (∀ q : ℚ, f.pos.markPrice = some (GoFloat.val q) → q ≠ 0 →
      (processPosition f).currentPrice = q) ∧
    (markPriceValue f.pos = none → infoDerivedPrice f.pos ≠ 0 →
      (processPosition f).currentPrice = infoDerivedPrice f.pos) ∧
    (∀ inf pd pv s, f.pos.info = some inf → inf.position = some pd →
      pd.positionValue = some pv → pd.szi = some s → s ≠ 0 →
      infoDerivedPrice f.pos = pv / |s|) ∧
    (markPriceValue f.pos = none → infoDerivedPrice f.pos = 0 →
      ∀ t : ℚ, f.ticker = Except.ok (some t) →
        (processPosition f).currentPrice = t) := by
  have hcp : (processPosition f).currentPrice = resolveCurrentPrice f.pos f.ticker := rfl
  refine ⟨?_, ?_, ?_, ?_⟩
  · intro q hmk hq
    have hmv : markPriceValue f.pos = some q := by
      simp [markPriceValue, hmk, hq]
    rw [hcp]
    simp only [resolveCurrentPrice, hmv]
    rw [if_neg hq]
  · intro hmv hdz
    rw [hcp]
    simp only [resolveCurrentPrice, hmv]
    rw [if_neg hdz]
  · intro inf pd pv s hinf hpd hpv hszi hs
    have habs : (if s < 0 then -s else s) = |s| := by
      rcases lt_or_le s 0 with hneg | hpos
      · rw [if_pos hneg, abs_of_neg hneg]
      · rw [if_neg (not_lt.mpr hpos), abs_of_nonneg hpos]
    simp only [infoDerivedPrice, hinf, hpd, hpv, hszi]
    rw [if_neg hs, habs]
  · intro hmv hdz t ht
    rw [hcp]
    simp only [resolveCurrentPrice, hmv, hdz, ht]
    simp

/-- C1 witness: with mark price NaN and metadata
`{position: {positionValue: 1000, szi: 10}}`, the current price resolves to
100 through the second step of the chain. -/
theorem price_resolution_chain_witness :
    markPriceValue c1fetch.pos = none ∧
    infoDerivedPrice c1fetch.pos ≠ 0 ∧
    (processPosition c1fetch).currentPrice = infoDerivedPrice c1fetch.pos ∧
    infoDerivedPrice c1fetch.pos = 1000 / |(10 : ℚ)| ∧
    (processPosition c1fetch).currentPrice = 100 := by
  refine ⟨by decide, by with_unfolding_all decide, ?_, ?_, by with_unfolding_all decide⟩
  · exact (price_resolution_chain c1fetch).2.1 (by decide) (by with_unfolding_all decide)
  · exact (price_resolution_chain c1fetch).2.2.1 _ _ 1000 10 rfl rfl rfl rfl
      (by norm_num)

/-- C2: an open untyped trigger order with a non-zero trigger price is
classified from position direction and order side — long position, sell
trigger: below entry is a stop-loss, above entry a take-profit; short
position, buy trigger: above entry is a stop-loss, below entry a take-profit —
and the classified order's trigger price and parsed id overwrite the exit
state's stop-loss / profit-target slot. -/
theorem trigger_role_inference (q e : ℚ) (st : ExitState) (o : RawOrder)
    (inf : RawOrderInfo) (hinfo : o.info = some inf)
    (htrig : inf.isTrigger = some true) (hu : untypedOrder inf.orderType)
    (htp : triggerPriceOf o ≠ 0) :
    (0 < q → o.side = some "sell" → triggerPriceOf o < e →
      applyOrder q e st o =
        { st with stopLoss := triggerPriceOf o, slOid := orderIdOf o }) ∧
    (0 < q → o.side = some "sell" → e < triggerPriceOf o →
      applyOrder q e st o =
        { st with profitTarget := triggerPriceOf o, tpOid := orderIdOf o }) ∧
    (q < 0 → o.side = some "buy" → e < triggerPriceOf o →
      applyOrder q e st o =
        { st with stopLoss := triggerPriceOf o, slOid := orderIdOf o }) ∧
    (q < 0 → o.side = some "buy" → triggerPriceOf o < e →
      applyOrder q e st o =
        { st with profitTarget := triggerPriceOf o, tpOid := orderIdOf o }) := by
  refine ⟨?_, ?_, ?_, ?_⟩ <;> intro hq hside hcmp
  · rw [applyOrder, orderFacts_long_sell_sl q e o inf hinfo htrig hu htp hq hside hcmp]
    rfl
  · rw [applyOrder,
      orderFacts_long_sell_tp q e o inf hinfo htrig hu htp hq hside (lt_asymm hcmp)]
    rfl
  · rw [applyOrder, orderFacts_short_buy_sl q e o inf hinfo htrig hu htp hq hside hcmp]
    rfl
  · rw [applyOrder,
      orderFacts_short_buy_tp q e o inf hinfo htrig hu htp hq hside (lt_asymm hcmp)]
    rfl

/-- C2 witness: long position (+2, entry 100) with an untyped sell trigger at
90 gets stop loss 90 (and id 123); short position (-2, entry 100) with an
untyped buy trigger at 110 gets stop loss 110 — both at the `applyOrder` step
and end-to-end through `processPosition`. -/
theorem trigger_role_inference_witness :
    untypedOrder c2info.orderType ∧ triggerPriceOf c2orderSell ≠ 0 ∧
    applyOrder 2 100 c2state c2orderSell =
      { c2state with stopLoss := 90, slOid := 123 } ∧
    applyOrder (-2) 100 c2state c2orderBuy =
      { c2state with stopLoss := 110, slOid := 456 } ∧
    (processPosition c2fetchLong).exitPlan.stopLoss = 90 ∧
    (processPosition c2fetchShort).exitPlan.stopLoss = 110 := by
  refine ⟨by decide, by decide, ?_, ?_, by decide, by decide⟩
  · have h := (trigger_role_inference 2 100 c2state c2orderSell c2info rfl rfl
      (by decide) (by decide)).1 (by norm_num) rfl (by decide)
    rw [h]
    decide
  · have h := (trigger_role_inference (-2) 100 c2state c2orderBuy c2infoBuy rfl rfl
      (by decide) (by decide)).2.2.1 (by norm_num) rfl (by decide)
    rw [h]
    decide

/-- C9: at the equality boundary the untyped-trigger inference is asymmetric:
an untyped sell trigger of a long position whose trigger price equals the
entry price is classified take-profit (not stop-loss), and likewise an
untyped buy trigger of a short position at exactly the entry price. -/
theorem equal_trigger_boundary (q e : ℚ) (st : ExitState) (o : RawOrder)
    (inf : RawOrderInfo) (hinfo : o.info = some inf)
    (htrig : inf.isTrigger = some true) (hu : untypedOrder inf.orderType)
    (htp : triggerPriceOf o = e) (he : e ≠ 0) :
    (0 < q → o.side = some "sell" →
      applyOrder q e st o = { st with profitTarget := e, tpOid := orderIdOf o }) ∧
    (q < 0 → o.side = some "buy" →
      applyOrder q e st o = { st with profitTarget := e, tpOid := orderIdOf o }) := by
  have htp0 : triggerPriceOf o ≠ 0 := by rw [htp]; exact he
  constructor <;> intro hq hside
  · rw [applyOrder, orderFacts_long_sell_tp q e o inf hinfo htrig hu htp0 hq hside
      (by rw [htp]; exact lt_irrefl e), htp]
    rfl
  · rw [applyOrder, orderFacts_short_buy_tp q e o inf hinfo htrig hu htp0 hq hside
      (by rw [htp]; exact lt_irrefl e), htp]
    rfl

/-- C9 witness: untyped triggers exactly at the entry price 100 set the profit
target, not the stop loss, for both the long/sell and the short/buy case. -/
theorem equal_trigger_boundary_witness :
    triggerPriceOf c9orderSell = 100 ∧ (100 : ℚ) ≠ 0 ∧
    applyOrder 2 100 c2state c9orderSell =
      { c2state with profitTarget := 100, tpOid := 7 } ∧
    applyOrder (-2) 100 c2state c9orderBuy =
      { c2state with profitTarget := 100, tpOid := 8 } := by
  refine ⟨by decide, by norm_num, ?_, ?_⟩
  · have h := (equal_trigger_boundary 2 100 c2state c9orderSell _ rfl rfl
      (by decide) (by decide) (by norm_num)).1 (by norm_num) rfl
    rw [h]
    decide
  · have h := (equal_trigger_boundary (-2) 100 c2state c9orderBuy _ rfl rfl
      (by decide) (by decide) (by norm_num)).2 (by norm_num) rfl
    rw [h]
    decide

/-- C10: when a classified stop-loss or take-profit order has a nil id or an
id string that does not parse as a decimal integer, the recorded linked order
id is 0 — neither the venue identifier nor the -1 sentinel. -/
theorem unparseable_id_zero (q e : ℚ) (st : ExitState) (o : RawOrder)
    (hid : o.id = none ∨ o.id.map sscanfInt = some none) :
    orderIdOf o = 0 ∧
    ((orderFacts q e o).isStopLoss = true → (applyOrder q e st o).slOid = 0) ∧
    ((orderFacts q e o).isStopLoss = false → (orderFacts q e o).isTakeProfit = true →
      (applyOrder q e st o).tpOid = 0) := by
  have hz : orderIdOf o = 0 := by
    rcases hid with h | h
    · simp [orderIdOf, h]
    · cases ho : o.id with
      | none => simp [orderIdOf, ho]
      | some s =>
        rw [ho] at h
        simp only [Option.map_some'] at h
        have hs := Option.some.inj h
        simp [orderIdOf, ho, hs]
  refine ⟨hz, ?_, ?_⟩
  · intro hsl
    simp [applyOrder, hsl, orderFacts_orderId, hz]
  · intro hsl htpr
    simp [applyOrder, hsl, htpr, orderFacts_orderId, hz]

/-- C10 witness: a "Stop Market" order with id "abc" records slOid = 0; a
"Take Profit" order with a nil id records tpOid = 0. -/
theorem unparseable_id_zero_witness :
    c10order.id.map sscanfInt = some none ∧
    orderIdOf c10order = 0 ∧
    (applyOrder 2 100 c2state c10order).slOid = 0 ∧
    (applyOrder 2 100 c2state c10orderTp).tpOid = 0 := by
  refine ⟨by decide, ?_, ?_, ?_⟩
  · exact (unparseable_id_zero 2 100 c2state c10order (Or.inr (by decide))).1
  · exact (unparseable_id_zero 2 100 c2state c10order (Or.inr (by decide))).2.1
      (by decide)
  · exact (unparseable_id_zero 2 100 c2state c10orderTp (Or.inl rfl)).2.2
      (by decide) (by decide)

/-- C5: every account snapshot built by `getAccountInfo` has a total account
value equal to the available cash plus the sum of the positions' notional
values, and for an empty position list equal to the available cash alone. -/
theorem account_value_is_cash_plus_notionals (f : AccountFetches) (ai : AccountInfo)
    (h : getAccountInfo f = Except.ok ai) :
    ai.currentAccountValue =
      ai.availableCash + (ai.positions.map Position.notionalUsd).sum ∧
    (ai.positions = [] → ai.currentAccountValue = ai.availableCash) := by
  cases hb : f.balanceFreeUSDC with
  | error e => simp [getAccountInfo, hb] at h
  | ok free =>
    cases hp : f.positions with
    | error e => simp [getAccountInfo, hb, hp] at h
    | ok ps =>
      rw [getAccountInfo_ok f free ps hb hp] at h
      obtain rfl := Except.ok.inj h
      constructor
      · rw [List.map_map]
        rfl
      · intro hnil
        have hps : ps = [] := by
          simpa using congrArg List.length hnil
        subst hps
        simp

/-- C5 witness: one position with notional 7 and cash 5 yields total 12; an
empty position list yields total = cash = 5. -/
theorem account_value_witness :
    getAccountInfo accOne = Except.ok c5ai ∧
    c5ai.currentAccountValue =
      c5ai.availableCash + (c5ai.positions.map Position.notionalUsd).sum ∧
    getAccountInfo accEmpty = Except.ok accEmptyAi ∧
    accEmptyAi.currentAccountValue = accEmptyAi.availableCash := by
  have h1 : getAccountInfo accOne = Except.ok c5ai := by with_unfolding_all decide
  have h2 : getAccountInfo accEmpty = Except.ok accEmptyAi := by with_unfolding_all decide
  exact ⟨h1, (account_value_is_cash_plus_notionals accOne c5ai h1).1, h2,
    (account_value_is_cash_plus_notionals accEmpty accEmptyAi h2).2 rfl⟩

/-- C8: every account snapshot has totalReturnPercent 0 and sharpeRatio 0, and
every contained position has waitForFill false, regardless of input. -/
theorem placeholder_fields_zero (f : AccountFetches) (ai : AccountInfo)
    (h : getAccountInfo f = Except.ok ai) :
    ai.totalReturnPercent = 0 ∧ ai.sharpeRatio = 0 ∧
    ∀ p ∈ ai.positions, p.waitForFill = false := by
  cases hb : f.balanceFreeUSDC with
  | error e => simp [getAccountInfo, hb] at h
  | ok free =>
    cases hp : f.positions with
    | error e => simp [getAccountInfo, hb, hp] at h
    | ok ps =>
      rw [getAccountInfo_ok f free ps hb hp] at h
      obtain rfl := Except.ok.inj h
      refine ⟨rfl, rfl, ?_⟩
      intro p hmem
      obtain ⟨pf, _, rfl⟩ := List.mem_map.1 hmem
      rfl

/-- C8 witness: the snapshot for `accOne` has the zero placeholders and its
single position has waitForFill false. -/
theorem placeholder_fields_zero_witness :
    getAccountInfo accOne = Except.ok c5ai ∧
    c5ai.totalReturnPercent = 0 ∧ c5ai.sharpeRatio = 0 ∧
    ∀ p ∈ c5ai.positions, p.waitForFill = false := by
  have h1 : getAccountInfo accOne = Except.ok c5ai := by with_unfolding_all decide
  obtain ⟨a, b, c⟩ := placeholder_fields_zero accOne c5ai h1
  exact ⟨h1, a, b, c⟩

/-- C7: fatal fetch failures (balance, positions, either candle fetch) abort
with an error wrapping the underlying error and the operation/symbol context,
while an account snapshot build whose balance and positions fetches succeed
always returns a snapshot, regardless of per-position open-order or ticker
failures. -/
theorem error_propagation_policy :
    (∀ (f : AccountFetches) (e : String), f.balanceFreeUSDC = Except.error e →
      getAccountInfo f = Except.error ("error fetching balance: " ++ e)) ∧
    (∀ (f : AccountFetches) (free : Option ℚ) (e : String),
      f.balanceFreeUSDC = Except.ok free → f.positions = Except.error e →
      getAccountInfo f = Except.error ("error fetching positions: " ++ e)) ∧
    (∀ (f : AccountFetches) (free : Option ℚ) (ps : List RawPositionFetch),
      f.balanceFreeUSDC = Except.ok free → f.positions = Except.ok ps →
      ∃ ai, getAccountInfo f = Except.ok ai) ∧
    (∀ (f : MarketFetches) (e : String), f.ohlcv1m = Except.error e →
      getMarketData f =
        GoResult.err ("error fetching 1m data for " ++ f.symbol ++ ": " ++ e)) ∧
    (∀ (f : MarketFetches) (c1 : List Candle) (e : String),
      f.ohlcv1m = Except.ok c1 → 34 ≤ c1.length → f.ohlcv4h = Except.error e →
      getMarketData f =
        GoResult.err ("error fetching 4h data for " ++ f.symbol ++ ": " ++ e)) := by
  refine ⟨?_, ?_, ?_, ?_, ?_⟩
  · intro f e h
    simp only [getAccountInfo, h]
  · intro f free e hb hp
    simp only [getAccountInfo, hb, hp]
  · intro f free ps hb hp
    exact ⟨_, getAccountInfo_ok f free ps hb hp⟩
  · intro f e h
    simp only [getMarketData, h]
  · intro f c1 e h1 h2 h3
    obtain ⟨s1, hs1⟩ := stage1m_ok c1 h2
    simp only [getMarketData, h1, hs1, GoResult.bind_ok, h3]

/-- C7 witness: concrete balance / positions / 1m / 4h fetch failures produce
the wrapped errors, and an ok balance+positions pair produces a snapshot. -/
theorem error_propagation_policy_witness :
    getAccountInfo accBalanceFail = Except.error "error fetching balance: boom" ∧
    getAccountInfo accPositionsFail = Except.error "error fetching positions: boom" ∧
    (∃ ai, getAccountInfo accEmpty = Except.ok ai) ∧
    getMarketData m1FailFetches =
      GoResult.err "error fetching 1m data for BTC/USDC:USDC: timeout" ∧
    getMarketData m4FailFetches =
      GoResult.err "error fetching 4h data for BTC/USDC:USDC: timeout" := by
  refine ⟨error_propagation_policy.1 accBalanceFail "boom" rfl,
    error_propagation_policy.2.1 accPositionsFail (some 5) "boom" rfl rfl,
    error_propagation_policy.2.2.1 accEmpty (some 5) [] rfl rfl,
    error_propagation_policy.2.2.2.1 m1FailFetches "timeout" rfl,
    error_propagation_policy.2.2.2.2 m4FailFetches (List.replicate 34 cdl) "timeout"
      rfl (by simp) rfl⟩

/-- C6: when the open-interest or funding-rate fetch fails (error, panic, or
nil value), `getMarketData` still returns a snapshot and the corresponding
field is zero. -/
theorem supplementary_failures_tolerated (f : MarketFetches) (c1 c4 : List Candle)
    (h1 : f.ohlcv1m = Except.ok c1) (h2 : 34 ≤ c1.length)
    (h3 : f.ohlcv4h = Except.ok c4) (h4 : 50 ≤ c4.length) :
    (f.openInterest.failed →
      ∃ md, getMarketData f = GoResult.ok md ∧ md.openInterest = 0) ∧
    (f.fundingRate.failed →
      ∃ md, getMarketData f = GoResult.ok md ∧ md.fundingRate = 0) := by
  obtain ⟨md, hmd, hoi, hfr⟩ := getMarketData_ok f c1 c4 h1 h2 h3 h4
  constructor
  · intro hfail
    exact ⟨md, hmd, by rw [hoi]; exact supplementaryValue_of_failed _ hfail⟩
  · intro hfail
    exact ⟨md, hmd, by rw [hfr]; exact supplementaryValue_of_failed _ hfail⟩

/-- C6 witness: with enough candles, an erroring open-interest fetch and a
panicking funding-rate fetch still yield a snapshot with zero in both fields. -/
theorem supplementary_failures_tolerated_witness :
    34 ≤ (List.replicate 34 cdl).length ∧ 50 ≤ (List.replicate 50 cdl).length ∧
    (∃ md, getMarketData suppFailFetches = GoResult.ok md ∧ md.openInterest = 0) ∧
    (∃ md, getMarketData suppFailFetches = GoResult.ok md ∧ md.fundingRate = 0) := by
  have h := supplementary_failures_tolerated suppFailFetches
    (List.replicate 34 cdl) (List.replicate 50 cdl) rfl (by simp) rfl (by simp)
  exact ⟨by simp, by simp, h.1 trivial, h.2 trivial⟩

/-- C4 counterexample: with both candle fetches succeeding but returning an
empty history, `getMarketData` crashes (Go panic) — it does not surface an
error. -/
theorem insufficient_history_no_error :
    getMarketData emptyFetches = GoResult.crashed :=
  getMarketData_short1m emptyFetches [] rfl (by simp)

/-- C4 amended: when the fetched candle history is shorter than an indicator's
required minimum (including the zero-length case), building the market
snapshot crashes with a Go panic (out-of-range indexing inside the indicator
computation or when taking the last element) instead of returning an error. -/
theorem insufficient_history_crashes (f : MarketFetches) (c1 c4 : List Candle) :
    (f.ohlcv1m = Except.ok c1 → c1.length < 34 →
      getMarketData f = GoResult.crashed) ∧
    (f.ohlcv1m = Except.ok c1 → 34 ≤ c1.length → f.ohlcv4h = Except.ok c4 →
      c4.length < 50 → getMarketData f = GoResult.crashed) :=
  ⟨getMarketData_short1m f c1, getMarketData_short4h f c1 c4⟩

/-- C4 witness: five 1m candles crash the build; enough 1m candles with only
ten 4h candles crash it as well. -/
theorem insufficient_history_crashes_witness :
    fiveFetches.ohlcv1m = Except.ok (List.replicate 5 cdl) ∧
    (List.replicate 5 cdl).length < 34 ∧
    getMarketData fiveFetches = GoResult.crashed ∧
    getMarketData shortFourFetches = GoResult.crashed := by
  refine ⟨rfl, by simp, ?_, ?_⟩
  · exact (insufficient_history_crashes fiveFetches (List.replicate 5 cdl) []).1
      rfl (by simp)
  · exact (insufficient_history_crashes shortFourFetches (List.replicate 34 cdl)
      (List.replicate 10 cdl)).2 rfl (by simp) rfl (by simp)

/-- C3: `MarketData.Format` always returns the empty string; the rendered
report is written to standard output instead (a side effect), so the method
does not return the textual report. -/
theorem market_format_prints_not_returns :
    (∀ m : MarketData, (MarketData.format m).returned = "") ∧
    (MarketData.format mdZero).printed ≠ "" := by
  refine ⟨fun m => rfl, ?_⟩
  with_unfolding_all decide

end Ashvattha
